import Mathlib

/-!
Verification development for the CostGuardian monitoring system.

The definitions below are a shallow embedding of the Python source files
pricing.py, cost_savings_calculator.py and lambda_handler.py under
src/lambda.  Monetary amounts and CPU percentages are
modelled as rationals, timestamps as integers (seconds since epoch), and
calls to external services (DynamoDB, S3, EC2 API) as explicit parameters
of type Except or Bool carrying the outcome the service reported.
-/

namespace CostGuardian

/-- Hourly EC2 rates from AWS_PRICING us-east-1 EC2 (pricing.py lines 6-47). -/
def ec2HourlyTable : List (String × ℚ) :=
  [("t2.nano", 0.0058), ("t2.micro", 0.0116), ("t2.small", 0.023),
   ("t2.medium", 0.0464), ("t2.large", 0.0928), ("t2.xlarge", 0.1856),
   ("t2.2xlarge", 0.3712),
   ("t3.nano", 0.0052), ("t3.micro", 0.0104), ("t3.small", 0.0208),
   ("t3.medium", 0.0416), ("t3.large", 0.0832), ("t3.xlarge", 0.1664),
   ("t3.2xlarge", 0.3328),
   ("t4g.nano", 0.0042), ("t4g.micro", 0.0084), ("t4g.small", 0.0168),
   ("t4g.medium", 0.0336), ("t4g.large", 0.0672),
   ("m5.large", 0.096), ("m5.xlarge", 0.192), ("m5.2xlarge", 0.384),
   ("m5.4xlarge", 0.768),
   ("c5.large", 0.085), ("c5.xlarge", 0.17), ("c5.2xlarge", 0.34),
   ("r5.large", 0.126), ("r5.xlarge", 0.252), ("r5.2xlarge", 0.504)]

/-- Hourly RDS rates from AWS_PRICING us-east-1 RDS (pricing.py lines 50-71). -/
def rdsHourlyTable : List (String × ℚ) :=
  [("db.t3.micro", 0.017), ("db.t3.small", 0.034), ("db.t3.medium", 0.068),
   ("db.t3.large", 0.136), ("db.t3.xlarge", 0.272), ("db.t3.2xlarge", 0.544),
   ("db.t4g.micro", 0.016), ("db.t4g.small", 0.032), ("db.t4g.medium", 0.064),
   ("db.t4g.large", 0.128),
   ("db.m5.large", 0.192), ("db.m5.xlarge", 0.384), ("db.m5.2xlarge", 0.768),
   ("db.r5.large", 0.24), ("db.r5.xlarge", 0.48), ("db.r5.2xlarge", 0.96)]

/-- EBS per-GB rates from AWS_PRICING us-east-1 EBS (pricing.py lines 86-93). -/
def ebsRateTable : List (String × ℚ) :=
  [("gp3", 0.08), ("gp2", 0.10), ("io1", 0.125), ("io2", 0.125),
   ("st1", 0.045), ("sc1", 0.015)]

/-- Resource types whose AWS_PRICING entry is a single number rather than a
per-instance-class table (pricing.py line 129). -/
def fixedRateTypes : List String :=
  ["NAT_GATEWAY", "ALB", "NLB", "ELB", "EIP", "VPC_ENDPOINT",
   "S3_BUCKET", "VPC", "SUBNET"]

/-- Fixed hourly rates of the types above (pricing.py lines 74-106). -/
def fixedHourlyTable : List (String × ℚ) :=
  [("NAT_GATEWAY", 0.045), ("ALB", 0.0225), ("NLB", 0.0225), ("ELB", 0.025),
   ("EIP", 0.005), ("VPC_ENDPOINT", 0.01), ("S3_BUCKET", 0), ("VPC", 0),
   ("SUBNET", 0)]

/-- pricing.get_hourly_rate.  AWS_PRICING has only a us-east-1 entry, so for
any other region the region lookup yields the empty table and every rate
defaults to 0.  Fixed-rate types are looked up directly; EC2, RDS and EBS go
through their per-instance-class tables with default 0.0; any other resource
type defaults to the empty table and hence 0.0. -/
def get_hourly_rate (resourceType instanceType region : String) : ℚ :=
  if region = "us-east-1" then
    if fixedRateTypes.contains resourceType then
      (fixedHourlyTable.lookup resourceType).getD 0
    else if resourceType = "EC2" then (ec2HourlyTable.lookup instanceType).getD 0
    else if resourceType = "RDS" then (rdsHourlyTable.lookup instanceType).getD 0
    else if resourceType = "EBS" then (ebsRateTable.lookup instanceType).getD 0
    else 0
  else
    if fixedRateTypes.contains resourceType then 0 else 0

/-- pricing.HOURS_PER_MONTH. -/
def HOURS_PER_MONTH : ℚ := 730

/-- pricing.calculate_monthly_savings. -/
def calculate_monthly_savings (resourceType instanceType region : String) : ℚ :=
  get_hourly_rate resourceType instanceType region * HOURS_PER_MONTH

/-- Whether the first character list starts the second. -/
def leadsWith : List Char → List Char → Bool
  | [], _ => true
  | _ :: _, [] => false
  | a :: as, b :: bs => a == b && leadsWith as bs

/-- Whether the pattern occurs somewhere in the text. -/
def hasSub (pat : List Char) : List Char → Bool
  | [] => leadsWith pat []
  | c :: rest => leadsWith pat (c :: rest) || hasSub pat rest

/-- Python substring membership test (the in operator on strings). -/
def containsSub (s pat : String) : Bool :=
  hasSub pat.data s.data

/-- Monthly EC2 cost table inside lambda_handler.get_instance_cost
(lambda_handler.py lines 2037-2071). -/
def ec2MonthlyTable : List (String × ℚ) :=
  [("t2.nano", 4.25), ("t2.micro", 8.50), ("t2.small", 17.00),
   ("t2.medium", 33.87), ("t2.large", 67.74), ("t2.xlarge", 135.48),
   ("t2.2xlarge", 270.96),
   ("t3.nano", 3.80), ("t3.micro", 7.59), ("t3.small", 15.18),
   ("t3.medium", 30.37), ("t3.large", 60.74), ("t3.xlarge", 121.47),
   ("t3.2xlarge", 242.94),
   ("m5.large", 69.35), ("m5.xlarge", 138.70), ("m5.2xlarge", 277.40),
   ("m5.4xlarge", 554.80),
   ("c5.large", 61.32), ("c5.xlarge", 122.63), ("c5.2xlarge", 245.26),
   ("r5.large", 90.40), ("r5.xlarge", 180.79), ("r5.2xlarge", 361.58)]

/-- lambda_handler.get_instance_cost (lines 2034-2093).  All table entries
are nonzero, so the Python truthiness test on the lookup result coincides
with presence in the table.  The fallback chain for unknown classes tests
substrings in source order: nano, micro, small, medium, large, then xlarge
without 2x, else 200. -/
def get_instance_cost (instanceType : String) : ℚ :=
  match ec2MonthlyTable.lookup instanceType with
  | some c => c
  | none =>
    if containsSub instanceType "nano" then 5
    else if containsSub instanceType "micro" then 10
    else if containsSub instanceType "small" then 20
    else if containsSub instanceType "medium" then 35
    else if containsSub instanceType "large" then 70
    else if containsSub instanceType "xlarge" && !(containsSub instanceType "2x") then 140
    else 200

/-- One DynamoDB item as seen by the savings calculator.  Optional fields
model attributes that may be absent from an item; the calculator reads them
with the defaults visible in the source (Unknown, gp3). -/
structure DbRecord where
  resourceId : Option String := none
  resourceType : Option String := none
  status : String := "UNKNOWN"
  timestamp : ℤ := 0
  instanceType : Option String := none
  dbInstanceClass : Option String := none
  volumeType : Option String := none
deriving Repr, DecidableEq

/-- resource.get with default Unknown (cost_savings_calculator.py line 150). -/
def recordResourceType (r : DbRecord) : String :=
  r.resourceType.getD "Unknown"

/-- The per-record instance-type selection of calculate_savings
(cost_savings_calculator.py lines 154-161): fixed-rate types use the resource
type itself, EBS uses VolumeType defaulting to gp3, everything else uses
InstanceType, falling back to DBInstanceClass and then Unknown. -/
def monthlySelectedInstanceType (r : DbRecord) : String :=
  let rt := recordResourceType r
  if fixedRateTypes.contains rt then rt
  else if rt = "EBS" then r.volumeType.getD "gp3"
  else r.instanceType.getD (r.dbInstanceClass.getD "Unknown")

/-- Monthly savings attributed to one record by calculate_savings. -/
def recordMonthlySavings (region : String) (r : DbRecord) : ℚ :=
  calculate_monthly_savings (recordResourceType r) (monthlySelectedInstanceType r) region

/-- The DynamoDB filter of calculate_savings: Status in (DELETED, STOPPED)
and Timestamp BETWEEN start AND end (both bounds inclusive). -/
def monthFilter (lo hi : ℤ) (r : DbRecord) : Bool :=
  (r.status == "DELETED" || r.status == "STOPPED") &&
    (lo ≤ r.timestamp && r.timestamp ≤ hi)

/-- Civil date (year, month, day) from days since 1970-01-01, the standard
Euclidean-division era algorithm; arguments of the inner divisions are
nonnegative, so the division convention is immaterial. -/
def civilFromDays (z : ℤ) : ℤ × ℤ × ℤ :=
  let z' := z + 719468
  let era := (if 0 ≤ z' then z' else z' - 146096) / 146097
  let doe := z' - era * 146097
  let yoe := (doe - doe / 1460 + doe / 36524 - doe / 146096) / 365
  let y := yoe + era * 400
  let doy := doe - (365 * yoe + yoe / 4 - yoe / 100)
  let mp := (5 * doy + 2) / 153
  let d := doy - (153 * mp + 2) / 5 + 1
  let m := mp + (if mp < 10 then 3 else -9)
  (y + (if m ≤ 2 then 1 else 0), m, d)

/-- Zero-pad to two digits. -/
def pad2 (n : ℤ) : String :=
  if n < 10 then "0" ++ toString n else toString n

/-- datetime.fromtimestamp(ts).strftime of a year-month-day date, with the
Lambda runtime clock in UTC. -/
def formatDate (ts : ℤ) : String :=
  let c := civilFromDays (Int.fdiv ts 86400)
  toString c.1 ++ "-" ++ pad2 c.2.1 ++ "-" ++ pad2 c.2.2

/-- Python percent .2f formatting of a nonnegative amount: round to whole
cents (ties upward; every amount the source produces here is an exact number
of cents, where the conventions agree) and print two decimals. -/
def formatMoney2 (q : ℚ) : String :=
  let cents : ℤ := ⌊q * 100 + 1 / 2⌋
  toString (cents / 100) ++ "." ++ pad2 (cents % 100)

/-- Aggregate per resource type inside savings_by_service. -/
structure ServiceAgg where
  count : ℕ
  savings : ℚ
deriving Repr, DecidableEq

/-- One entry of detailed_resources. -/
structure DetailRow where
  date : String
  resourceId : String
  resourceType : String
  instanceType : String
  monthlySavings : ℚ
deriving Repr, DecidableEq

/-- The dictionary returned by calculate_savings (minus the month label and
generation time, which no claim concerns). -/
structure SavingsData where
  totalSavings : ℚ
  totalResources : ℕ
  savingsByService : List (String × ServiceAgg)
  detailedResources : List DetailRow
deriving Repr, DecidableEq

/-- Add one record to savings_by_service, preserving the insertion order of
a Python dict. -/
def bumpService : List (String × ServiceAgg) → String → ℚ → List (String × ServiceAgg)
  | [], rt, s => [(rt, ⟨1, s⟩)]
  | (k, a) :: rest, rt, s =>
    if k = rt then (k, ⟨a.count + 1, a.savings + s⟩) :: rest
    else (k, a) :: bumpService rest rt s

/-- Loop body of calculate_savings (cost_savings_calculator.py lines
149-184): records whose computed monthly savings are not positive are
skipped entirely. -/
def savingsStep (region : String)
    (acc : List (String × ServiceAgg) × List DetailRow) (r : DbRecord) :
    List (String × ServiceAgg) × List DetailRow :=
  let s := recordMonthlySavings region r
  if 0 < s then
    (bumpService acc.1 (recordResourceType r) s,
     acc.2 ++ [⟨formatDate r.timestamp, r.resourceId.getD "Unknown",
               recordResourceType r, monthlySelectedInstanceType r, s⟩])
  else acc

/-- cost_savings_calculator.calculate_savings, with the month boundaries
passed as the two timestamps the source computes from the YYYY-MM label. -/
def calculateSavings (region : String) (lo hi : ℤ) (log : List DbRecord) :
    SavingsData :=
  let agg := (log.filter (monthFilter lo hi)).foldl (savingsStep region) ([], [])
  { totalSavings := (agg.1.map (fun p => p.2.savings)).sum
    totalResources := agg.2.length
    savingsByService := agg.1
    detailedResources := agg.2 }

/-- The status filter of calculate_cumulative_savings: DELETED or STOPPED,
with no time bound. -/
def cumulativeStatusFilter (r : DbRecord) : Bool :=
  r.status == "DELETED" || r.status == "STOPPED"

/-- Per-record savings used by calculate_cumulative_savings
(cost_savings_calculator.py lines 340-343): always the InstanceType
attribute with default Unknown, for every resource type. -/
def recordCumulativeSavings (region : String) (r : DbRecord) : ℚ :=
  calculate_monthly_savings (recordResourceType r) (r.instanceType.getD "Unknown") region

/-- cost_savings_calculator.calculate_cumulative_savings. -/
def calculateCumulativeSavings (region : String) (log : List DbRecord) : ℚ :=
  ((log.filter cumulativeStatusFilter).map (recordCumulativeSavings region)).sum

/-- One data row of the CSV report (cost_savings_calculator.py lines
447-454). -/
def csvRow (r : DetailRow) : String :=
  r.date ++ "," ++ r.resourceId ++ "," ++ r.resourceType ++ "," ++
    r.instanceType ++ ",$" ++ formatMoney2 r.monthlySavings

/-- cost_savings_calculator.generate_csv_report as its list of lines (the
source joins them with newlines): header, one row per detailed resource, a
blank line, then the two summary rows. -/
def generateCsvReport (sd : SavingsData) : List String :=
  "Date,Resource ID,Resource Type,Instance Type,Monthly Savings" ::
    (sd.detailedResources.map csvRow ++
     ["", "Total Savings,,,$" ++ formatMoney2 sd.totalSavings,
      "Total Resources,,," ++ toString sd.totalResources])

/-- The module-level policy constants read by determine_action
(lambda_handler.py lines 30-36), gathered into one value so the decision
function can be studied at every policy the source mentions. -/
structure Config where
  cpuIdleThreshold : ℚ
  idleChecksBeforeAction : ℕ
  skipQuarantine : Bool
  gracePeriodDays : ℕ
deriving Repr, DecidableEq

/-- The constants as set in the source: CPU_IDLE_THRESHOLD 5.0,
IDLE_CHECKS_BEFORE_ACTION 1, SKIP_QUARANTINE true, GRACE_PERIOD_DAYS 0. -/
def sourceConfig : Config := ⟨5, 1, true, 0⟩

/-- One history item as read by determine_action: the Status attribute
(missing treated as UNKNOWN) and the Timestamp attribute. -/
structure HistEntry where
  status : Option String := none
  timestamp : Option ℤ := none
deriving Repr, DecidableEq

/-- The four actions determine_action can return. -/
inductive Action where
  | ACTIVE | WARN | QUARANTINE | DELETE
deriving Repr, DecidableEq

/-- The triple determine_action returns. -/
structure Decision where
  action : Action
  idleCount : ℕ
  quarantineDate : Option ℤ
deriving Repr, DecidableEq

/-- The newest-to-oldest scan of determine_action (lambda_handler.py lines
2149-2173), on the already reversed history: ACTIVE stops the count;
IDLE and IDLE_WARNING entries are counted; a QUARANTINE entry counts once,
records its timestamp (a timestamp of 0 is falsy in Python and is dropped)
and stops; any other status is skipped without counting. -/
def scanHistory : List HistEntry → ℕ → ℕ × Option ℤ
  | [], acc => (acc, none)
  | e :: rest, acc =>
    let s := e.status.getD "UNKNOWN"
    if s = "ACTIVE" then (acc, none)
    else if s = "IDLE" || s = "IDLE_WARNING" then scanHistory rest (acc + 1)
    else if s = "QUARANTINE" then
      match e.timestamp with
      | some t => if t = 0 then (acc + 1, none) else (acc + 1, some t)
      | none => (acc + 1, none)
    else scanHistory rest acc

/-- lambda_handler.determine_action (lines 2129-2206).  now is the wall
clock in seconds; history is ascending by timestamp as get_resource_history
returns it.  Grace-period expiry compares elapsed seconds divided by 86400
against GRACE_PERIOD_DAYS. -/
def determine_action (cfg : Config) (now : ℚ) (history : List HistEntry)
    (currentCpu : ℚ) : Decision :=
  if cfg.cpuIdleThreshold ≤ currentCpu then ⟨Action.ACTIVE, 0, none⟩
  else
    let sc := scanHistory history.reverse 0
    match sc.2 with
    | some q =>
      if (cfg.gracePeriodDays : ℚ) ≤ (now - (q : ℚ)) / 86400 then
        ⟨Action.DELETE, sc.1, some q⟩
      else
        ⟨Action.QUARANTINE, sc.1, some q⟩
    | none =>
      if cfg.idleChecksBeforeAction ≤ sc.1 then
        if cfg.skipQuarantine then ⟨Action.DELETE, sc.1, none⟩
        else ⟨Action.QUARANTINE, sc.1, none⟩
      else if 1 ≤ sc.1 then ⟨Action.WARN, sc.1, none⟩
      else ⟨Action.WARN, 0, none⟩

/-- The IdleCount attribute the EC2 WARN branch writes back to the store
(lambda_handler.py line 217): the returned count plus one. -/
def ec2WarnRecordIdleCount (d : Decision) : ℕ :=
  d.idleCount + 1

/-- lambda_handler.get_resource_history (lines 2098-2123): the DynamoDB
query result when it succeeds, and the empty list when the query raises. -/
def get_resource_history (queryResult : Except String (List HistEntry)) :
    List HistEntry :=
  match queryResult with
  | Except.ok items => items
  | Except.error _ => []

/-- The EC2 DELETE branch (lambda_handler.py lines 285-351), as a function
of what the collaborators report: the S3 backup-presence check (its key
count when the call succeeds, the raised error otherwise) and whether
terminate_instance succeeded.  Result: the Status recorded this cycle (none
when nothing is written and the last recorded state stands) paired with
whether terminate was invoked. -/
def ec2DeleteBranch (verify : Except String ℕ) (terminateSuccess : Bool) :
    Option String × Bool :=
  match verify with
  | Except.ok keyCount =>
    if 0 < keyCount then
      (if terminateSuccess then some "DELETED" else none, true)
    else (none, false)
  | Except.error _ => (none, false)

/-- The NAT gateway arm of the monitoring loop (lambda_handler.py lines
403-479), as a function of the idle signal, the consecutive-idle count from
history, the result of backup_nat_gateway_config, and whether
delete_nat_gateway succeeded.  Result: the Status recorded paired with
whether delete_nat_gateway was invoked.  The source assigns the capture
result to backup_success and never reads it: the delete call is not gated
on it and there is no backup-presence re-verification. -/
def natGatewayStep (isIdle : Bool) (idleCount : ℕ) (backupCaptureOk : Bool)
    (deleteSuccess : Bool) : Option String × Bool :=
  if !isIdle then (some "ACTIVE", false)
  else if idleCount < 3 then (some "IDLE_WARNING", false)
  else
    let _ := backupCaptureOk
    (if deleteSuccess then some "DELETED" else none, true)

/-- The per-type statistics dictionary a monitoring cycle accumulates
(lambda_handler.py lines 107-113, and the analogous per-type dictionaries
for the other resource kinds). -/
structure Stats where
  total : ℕ := 0
  active : ℕ := 0
  idle : ℕ := 0
  backedUp : ℕ := 0
  errors : ℕ := 0
deriving Repr, DecidableEq

/-- Processing one resource inside the per-resource try block: a successful
evaluation contributes its counter increments; an exception is caught and
adds one to the error counter, nothing else (lambda_handler.py lines
353-357). -/
def applyOutcome (s : Stats) (r : Except String Stats) : Stats :=
  match r with
  | Except.ok d =>
    ⟨s.total + d.total, s.active + d.active, s.idle + d.idle,
     s.backedUp + d.backedUp, s.errors + d.errors⟩
  | Except.error _ => { s with errors := s.errors + 1 }

/-- The per-resource loop of one monitoring cycle for one resource type:
every listed resource is visited in order regardless of earlier failures. -/
def processResources (rs : List (Except String Stats)) : Stats :=
  rs.foldl applyOutcome {}

/-- lambda_handler (lines 98-115): validate_configuration runs before the
try block, so a configuration error (unreachable bucket, table or topic,
lambda_handler.py lines 5734-5756) propagates before any resource is
touched; otherwise the loop runs to completion and the cycle reports its
summary. -/
def runCycle (configCheck : Except String Unit)
    (rs : List (Except String Stats)) : Except String Stats :=
  match configCheck with
  | Except.error e => Except.error e
  | Except.ok _ => Except.ok (processResources rs)

/-! ## Helper lemmas about the history scan -/

lemma scanHistory_active (ts : Option ℤ) (rest : List HistEntry) (acc : ℕ) :
    scanHistory (⟨some "ACTIVE", ts⟩ :: rest) acc = (acc, none) := by
  simp [scanHistory]

lemma scanHistory_warnEntry (rest : List HistEntry) (acc : ℕ) :
    scanHistory (⟨some "IDLE_WARNING", none⟩ :: rest) acc =
      scanHistory rest (acc + 1) := by
  simp [scanHistory]

lemma scanHistory_quarantine (q : ℤ) (rest : List HistEntry) (acc : ℕ)
    (hq : q ≠ 0) :
    scanHistory (⟨some "QUARANTINE", some q⟩ :: rest) acc = (acc + 1, some q) := by
  simp [scanHistory, hq]

lemma scanHistory_warn_replicate (k : ℕ) (ts : Option ℤ)
    (rest : List HistEntry) (acc : ℕ) :
    scanHistory (List.replicate k ⟨some "IDLE_WARNING", none⟩ ++
      ⟨some "ACTIVE", ts⟩ :: rest) acc = (acc + k, none) := by
  induction k generalizing acc with
  | zero => simpa using scanHistory_active ts rest acc
  | succ n ih =>
    simp only [List.replicate_succ, List.cons_append]
    rw [scanHistory_warnEntry, ih]
    have h : acc + 1 + n = acc + (n + 1) := by omega
    rw [h]

/-! ## C2 -/

/-- C2.  For every policy, clock, history and a current signal that is not
idle (CPU at or above the idle threshold), determine_action returns ACTIVE
with idle count 0 and no quarantine marker, regardless of the history. -/
theorem active_always_wins (cfg : Config) (now : ℚ) (history : List HistEntry)
    (cpu : ℚ) (h : cfg.cpuIdleThreshold ≤ cpu) :
    determine_action cfg now history cpu = ⟨Action.ACTIVE, 0, none⟩ := by
  simp [determine_action, h]

/-- Witness for C2: a history holding a QUARANTINE entry and CPU at 50
percent still yields ACTIVE with idle count 0. -/
theorem active_always_wins_witness :
    sourceConfig.cpuIdleThreshold ≤ (50 : ℚ) ∧
    determine_action sourceConfig 0 [⟨some "QUARANTINE", some 100⟩] 50 =
      ⟨Action.ACTIVE, 0, none⟩ :=
  ⟨by norm_num [sourceConfig],
   active_always_wins sourceConfig 0 [⟨some "QUARANTINE", some 100⟩] 50
     (by norm_num [sourceConfig])⟩

/-! ## C3 -/

/-- C3.  With an idle signal and the newest record a QUARANTINE entry at
timestamp q, the decision is DELETE exactly when the elapsed seconds reach
gracePeriodDays whole days (inclusive at the boundary), QUARANTINE exactly
when they fall strictly short, and the DELETE condition coincides with the
rounded-down day count reaching gracePeriodDays, so deletion never happens
before the grace period fully elapses. -/
theorem grace_period_boundary (cfg : Config) (now : ℚ) (h : List HistEntry)
    (q : ℤ) (cpu : ℚ) (hcpu : cpu < cfg.cpuIdleThreshold) (hq : q ≠ 0) :
    ((determine_action cfg now (h ++ [⟨some "QUARANTINE", some q⟩]) cpu).action =
        Action.DELETE ↔ (cfg.gracePeriodDays : ℚ) * 86400 ≤ now - (q : ℚ)) ∧
    ((determine_action cfg now (h ++ [⟨some "QUARANTINE", some q⟩]) cpu).action =
        Action.QUARANTINE ↔ now - (q : ℚ) < (cfg.gracePeriodDays : ℚ) * 86400) ∧
    ((determine_action cfg now (h ++ [⟨some "QUARANTINE", some q⟩]) cpu).action =
        Action.DELETE ↔ (cfg.gracePeriodDays : ℤ) ≤ ⌊(now - (q : ℚ)) / 86400⌋) := by
  have hnot : ¬ cfg.cpuIdleThreshold ≤ cpu := not_le.mpr hcpu
  have hdiv : (cfg.gracePeriodDays : ℚ) ≤ (now - (q : ℚ)) / 86400 ↔
      (cfg.gracePeriodDays : ℚ) * 86400 ≤ now - (q : ℚ) :=
    le_div_iff₀ (by norm_num)
  have hfloor : (cfg.gracePeriodDays : ℤ) ≤ ⌊(now - (q : ℚ)) / 86400⌋ ↔
      (cfg.gracePeriodDays : ℚ) ≤ (now - (q : ℚ)) / 86400 := by
    rw [Int.le_floor]; norm_cast
  have hA : (determine_action cfg now (h ++ [⟨some "QUARANTINE", some q⟩]) cpu).action =
      if (cfg.gracePeriodDays : ℚ) ≤ (now - (q : ℚ)) / 86400 then Action.DELETE
      else Action.QUARANTINE := by
    simp only [determine_action, hnot, if_false, List.reverse_append,
      List.reverse_cons, List.reverse_nil, List.nil_append, List.cons_append,
      scanHistory_quarantine q h.reverse 0 hq]
    by_cases hle : (cfg.gracePeriodDays : ℚ) ≤ (now - (q : ℚ)) / 86400 <;>
      simp [hle]
  by_cases hle : (cfg.gracePeriodDays : ℚ) ≤ (now - (q : ℚ)) / 86400
  · refine ⟨?_, ?_, ?_⟩
    · rw [hA, if_pos hle]
      exact iff_of_true rfl (hdiv.mp hle)
    · rw [hA, if_pos hle]
      exact iff_of_false (by decide) (not_lt.mpr (hdiv.mp hle))
    · rw [hA, if_pos hle]
      exact iff_of_true rfl (hfloor.mpr hle)
  · refine ⟨?_, ?_, ?_⟩
    · rw [hA, if_neg hle]
      exact iff_of_false (by decide) (fun hge => hle (hdiv.mpr hge))
    · rw [hA, if_neg hle]
      exact iff_of_true rfl (not_le.mp (fun hge => hle (hdiv.mpr hge)))
    · rw [hA, if_neg hle]
      exact iff_of_false (by decide) (fun hf => hle (hfloor.mp hf))

/-- Witness for C3: grace period 7 days, quarantined at second 1 and checked
at second 604801, so elapsed is exactly 7 days; the action is DELETE. -/
theorem grace_period_boundary_witness :
    (0 : ℚ) < (Config.mk 5 1 true 7).cpuIdleThreshold ∧ (1 : ℤ) ≠ 0 ∧
    (determine_action ⟨5, 1, true, 7⟩ 604801
      ([] ++ [⟨some "QUARANTINE", some 1⟩]) 0).action = Action.DELETE :=
  ⟨by norm_num, by decide,
   ((grace_period_boundary ⟨5, 1, true, 7⟩ 604801 [] 1 0 (by norm_num)
      (by decide)).1).mpr (by norm_num)⟩

/-! ## C4 -/

/-- An ACTIVE history entry. -/
def activeEntry (ts : Option ℤ) : HistEntry := ⟨some "ACTIVE", ts⟩

/-- An IDLE_WARNING history entry. -/
def warnEntry : HistEntry := ⟨some "IDLE_WARNING", none⟩

/-- A QUARANTINE history entry at timestamp q. -/
def quarantineEntry (q : ℤ) : HistEntry := ⟨some "QUARANTINE", some q⟩

lemma scan_reverse_warn_tail (pre : List HistEntry) (k : ℕ) (ts : Option ℤ) :
    scanHistory ((pre ++ [activeEntry ts]) ++ List.replicate k warnEntry).reverse 0 =
      (k, none) := by
  rw [List.reverse_append, List.reverse_replicate, List.reverse_append,
    List.reverse_singleton, List.singleton_append, warnEntry, activeEntry]
  simpa using scanHistory_warn_replicate k ts pre.reverse 0

lemma scan_reverse_active_last (pre : List HistEntry) (ts : Option ℤ) :
    scanHistory (pre ++ [activeEntry ts]).reverse 0 = (0, none) := by
  rw [List.reverse_append, List.reverse_singleton, List.singleton_append,
    activeEntry]
  exact scanHistory_active ts pre.reverse 0

lemma scan_reverse_quarantine_last (h : List HistEntry) (q : ℤ) (hq : q ≠ 0) :
    scanHistory (h ++ [quarantineEntry q]).reverse 0 = (1, some q) := by
  rw [List.reverse_append, List.reverse_singleton, List.singleton_append,
    quarantineEntry]
  exact scanHistory_quarantine q h.reverse 0 hq

lemma idleCount_of_scan_none (cfg : Config) (now : ℚ)
    (history : List HistEntry) (cpu : ℚ) (hcpu : cpu < cfg.cpuIdleThreshold)
    (k : ℕ) (hsc : scanHistory history.reverse 0 = (k, none)) :
    (determine_action cfg now history cpu).idleCount = k := by
  have hn : ¬ cfg.cpuIdleThreshold ≤ cpu := not_le.mpr hcpu
  simp only [determine_action, hn, if_false, hsc]
  by_cases h1 : cfg.idleChecksBeforeAction ≤ k
  · by_cases h2 : cfg.skipQuarantine <;> simp [h1, h2]
  · by_cases h2 : 1 ≤ k
    · simp [h1, h2]
    · simp [h1, h2]
      omega

lemma idleCount_of_scan_quarantine (cfg : Config) (now : ℚ)
    (history : List HistEntry) (cpu : ℚ) (hcpu : cpu < cfg.cpuIdleThreshold)
    (q : ℤ) (hsc : scanHistory history.reverse 0 = (1, some q)) :
    (determine_action cfg now history cpu).idleCount = 1 := by
  have hn : ¬ cfg.cpuIdleThreshold ≤ cpu := not_le.mpr hcpu
  simp only [determine_action, hn, if_false, hsc]
  by_cases hle : (cfg.gracePeriodDays : ℚ) ≤ (now - (q : ℚ)) / 86400 <;>
    simp [hle]

lemma warn_of_scan_zero (cfg : Config) (now : ℚ) (history : List HistEntry)
    (cpu : ℚ) (hcpu : cpu < cfg.cpuIdleThreshold)
    (hchecks : 1 ≤ cfg.idleChecksBeforeAction)
    (hsc : scanHistory history.reverse 0 = (0, none)) :
    determine_action cfg now history cpu = ⟨Action.WARN, 0, none⟩ := by
  have hn : ¬ cfg.cpuIdleThreshold ≤ cpu := not_le.mpr hcpu
  have h1 : ¬ cfg.idleChecksBeforeAction ≤ 0 := by omega
  simp [determine_action, hn, hsc, h1]

/-- Counterexample to C4 as stated: for history consisting of a single
ACTIVE record and an idle current signal, determine_action returns WARN
with idle count 0, not 1 (the recorded IdleCount attribute is the returned
count plus one; and for a newest QUARANTINE record storing idle count 3,
the returned count is 1, not 4). -/
theorem idle_count_scenario_counterexample :
    determine_action sourceConfig 1000 [⟨some "ACTIVE", some 1⟩] 0 =
      ⟨Action.WARN, 0, none⟩ ∧
    (determine_action sourceConfig 1000 [⟨some "ACTIVE", some 1⟩] 0).idleCount ≠ 1 := by
  constructor
  · decide
  · decide

/-- C4 amended.  With an idle signal: when the newest records are k
consecutive IDLE_WARNING entries below which sits an ACTIVE entry, the
returned idle count is exactly k and the IdleCount attribute the WARN
branch would write is k + 1; when the newest record is a QUARANTINE entry
the returned idle count is always 1, whatever count that record stored;
and for a history ending in an ACTIVE record (with at least one idle check
required by policy) the decision is WARN with returned idle count 0,
recorded as 1. -/
theorem idle_count_from_consecutive_scan (cfg : Config) (now : ℚ)
    (pre : List HistEntry) (k : ℕ) (ts : Option ℤ) (cpu : ℚ)
    (hcpu : cpu < cfg.cpuIdleThreshold) :
    ((determine_action cfg now
        ((pre ++ [activeEntry ts]) ++ List.replicate k warnEntry) cpu).idleCount = k ∧
     ec2WarnRecordIdleCount (determine_action cfg now
        ((pre ++ [activeEntry ts]) ++ List.replicate k warnEntry) cpu) = k + 1) ∧
    (∀ (h : List HistEntry) (q : ℤ), q ≠ 0 →
      (determine_action cfg now (h ++ [quarantineEntry q]) cpu).idleCount = 1) ∧
    (1 ≤ cfg.idleChecksBeforeAction →
      determine_action cfg now (pre ++ [activeEntry ts]) cpu =
        ⟨Action.WARN, 0, none⟩) := by
  have hcount := idleCount_of_scan_none cfg now
    ((pre ++ [activeEntry ts]) ++ List.replicate k warnEntry) cpu hcpu k
    (scan_reverse_warn_tail pre k ts)
  refine ⟨⟨hcount, by rw [ec2WarnRecordIdleCount, hcount]⟩, ?_, ?_⟩
  · intro h q hq
    exact idleCount_of_scan_quarantine cfg now (h ++ [quarantineEntry q]) cpu
      hcpu q (scan_reverse_quarantine_last h q hq)
  · intro hchecks
    exact warn_of_scan_zero cfg now (pre ++ [activeEntry ts]) cpu hcpu hchecks
      (scan_reverse_active_last pre ts)

/-- Witness for C4 amended: policy requiring three idle checks, history
ACTIVE followed by two IDLE_WARNING entries, idle signal: returned idle
count is 2. -/
theorem idle_count_from_consecutive_scan_witness :
    (0 : ℚ) < (Config.mk 5 3 false 7).cpuIdleThreshold ∧
    (determine_action ⟨5, 3, false, 7⟩ 0
      (([] ++ [activeEntry (some 5)]) ++ List.replicate 2 warnEntry) 0).idleCount = 2 :=
  ⟨by norm_num,
   ((idle_count_from_consecutive_scan ⟨5, 3, false, 7⟩ 0 [] 2 (some 5) 0
      (by norm_num)).1).1⟩

/-! ## C9 -/

/-- C9.  When the history query raises, get_resource_history returns the
empty list; with an idle signal the decision on an empty history is WARN
with idle count 0, and whatever the signal, a store read failure alone can
never produce QUARANTINE or DELETE (for any policy demanding at least one
idle check, as every policy in the source does). -/
theorem store_failure_never_destructive (cfg : Config) (now cpu : ℚ)
    (msg : String) (hchecks : 1 ≤ cfg.idleChecksBeforeAction) :
    get_resource_history (Except.error msg) = ([] : List HistEntry) ∧
    (cpu < cfg.cpuIdleThreshold →
      determine_action cfg now (get_resource_history (Except.error msg)) cpu =
        ⟨Action.WARN, 0, none⟩) ∧
    (determine_action cfg now (get_resource_history (Except.error msg)) cpu).action ≠
      Action.QUARANTINE ∧
    (determine_action cfg now (get_resource_history (Except.error msg)) cpu).action ≠
      Action.DELETE := by
  have hempty : get_resource_history (Except.error msg) = ([] : List HistEntry) := rfl
  have h1 : ¬ cfg.idleChecksBeforeAction ≤ 0 := by omega
  by_cases hc : cfg.cpuIdleThreshold ≤ cpu
  · refine ⟨hempty, fun hlt => absurd hc (not_le.mpr hlt), ?_, ?_⟩ <;>
      simp [hempty, determine_action, hc]
  · have hwarn : determine_action cfg now ([] : List HistEntry) cpu =
        ⟨Action.WARN, 0, none⟩ := by
      simp [determine_action, hc, scanHistory, h1]
    refine ⟨hempty, fun _ => by rw [hempty, hwarn], ?_, ?_⟩ <;>
      simp [hempty, hwarn]

/-- Witness for C9: the source policy (one idle check required), a failed
query and an idle signal yield WARN with idle count 0. -/
theorem store_failure_never_destructive_witness :
    1 ≤ sourceConfig.idleChecksBeforeAction ∧
    ((0 : ℚ) < sourceConfig.cpuIdleThreshold →
      determine_action sourceConfig 0
        (get_resource_history (Except.error "query failed")) 0 =
        ⟨Action.WARN, 0, none⟩) :=
  ⟨by decide,
   (store_failure_never_destructive sourceConfig 0 0 "query failed"
      (by decide)).2.1⟩

/-! ## C1 -/

/-- Counterexample to C1 as stated: in the NAT gateway arm, with an idle
signal and three prior idle checks, a failed backup capture does not stop
the destroy call; delete_nat_gateway is invoked and the cycle records the
terminal status DELETED. -/
theorem nat_delete_ignores_backup_capture :
    natGatewayStep true 3 false true = (some "DELETED", true) := by
  decide

/-- C1 amended.  The EC2 path alone implements the safety gate: DELETED is
recorded exactly when the S3 backup-presence check immediately before the
destroy call succeeds with a positive key count and terminate succeeds, and
terminate is invoked exactly when the presence check succeeds with a
positive key count (on verification failure nothing is recorded and the
last state stands).  The NAT gateway path deletes once the idle streak
reaches three regardless of the capture result, with no presence
re-verification, recording DELETED whenever the delete call succeeds. -/
theorem backup_gating_ec2_only :
    (∀ (v : Except String ℕ) (t : Bool),
      ((ec2DeleteBranch v t).1 = some "DELETED" ↔
        ∃ k, v = Except.ok k ∧ 0 < k ∧ t = true) ∧
      ((ec2DeleteBranch v t).2 = true ↔ ∃ k, v = Except.ok k ∧ 0 < k)) ∧
    (∀ (b d : Bool), (natGatewayStep true 3 b d).2 = true ∧
      ((natGatewayStep true 3 b d).1 = some "DELETED" ↔ d = true)) := by
  constructor
  · intro v t
    cases v with
    | error msg =>
      refine ⟨⟨fun hcontra => ?_, fun ⟨k, hk, _⟩ => by cases hk⟩,
        ⟨fun hcontra => ?_, fun ⟨k, hk, _⟩ => by cases hk⟩⟩ <;>
        simp [ec2DeleteBranch] at hcontra
    | ok k =>
      by_cases hk : 0 < k
      · cases t with
        | true =>
          exact ⟨⟨fun _ => ⟨k, rfl, hk, rfl⟩, fun _ => by simp [ec2DeleteBranch, hk]⟩,
            ⟨fun _ => ⟨k, rfl, hk⟩, fun _ => by simp [ec2DeleteBranch, hk]⟩⟩
        | false =>
          refine ⟨⟨fun hcontra => ?_, fun ⟨m, hm, _, ht⟩ => by cases ht⟩,
            ⟨fun _ => ⟨k, rfl, hk⟩, fun _ => by simp [ec2DeleteBranch, hk]⟩⟩
          simp [ec2DeleteBranch, hk] at hcontra
      · refine ⟨⟨fun hcontra => ?_, fun ⟨m, hm, hm0, _⟩ => ?_⟩,
          ⟨fun hcontra => ?_, fun ⟨m, hm, hm0⟩ => ?_⟩⟩
        · simp [ec2DeleteBranch, hk] at hcontra
        · cases hm; exact absurd hm0 hk
        · simp [ec2DeleteBranch, hk] at hcontra
        · cases hm; exact absurd hm0 hk
  · intro b d
    cases d <;> simp [natGatewayStep]

/-! ## C7 -/

lemma applyOutcome_bump (s : Stats) (r : Except String Stats) :
    applyOutcome { s with errors := s.errors + 1 } r =
      (fun t => { t with errors := t.errors + 1 }) (applyOutcome s r) := by
  cases r with
  | ok d => simp [applyOutcome]; omega
  | error msg => simp [applyOutcome]

lemma foldl_applyOutcome_bump (l : List (Except String Stats)) (s : Stats) :
    l.foldl applyOutcome { s with errors := s.errors + 1 } =
      (fun t => { t with errors := t.errors + 1 }) (l.foldl applyOutcome s) := by
  induction l generalizing s with
  | nil => rfl
  | cons r rest ih =>
    simp only [List.foldl_cons, applyOutcome_bump s r]
    exact ih (applyOutcome s r)

/-- C7.  A configuration-check failure propagates and the cycle stops
before any resource is processed; with configuration validated, the cycle
always returns the aggregated per-type summary; and a resource whose
processing raises contributes exactly one error to the type counters while
every other resource in the cycle is processed exactly as it would be
without the failing one. -/
theorem cycle_error_isolation (e : String) (rs xs ys : List (Except String Stats)) :
    runCycle (Except.error e) rs = Except.error e ∧
    runCycle (Except.ok ()) rs = Except.ok (processResources rs) ∧
    processResources (xs ++ Except.error e :: ys) =
      (fun t => { t with errors := t.errors + 1 }) (processResources (xs ++ ys)) := by
  refine ⟨rfl, rfl, ?_⟩
  show (xs ++ Except.error e :: ys).foldl applyOutcome {} = _
  rw [List.foldl_append, List.foldl_cons]
  have hstep : applyOutcome (xs.foldl applyOutcome {}) (Except.error e) =
      { xs.foldl applyOutcome {} with
        errors := (xs.foldl applyOutcome {}).errors + 1 } := rfl
  rw [hstep, foldl_applyOutcome_bump ys (xs.foldl applyOutcome {})]
  show _ = (fun t => { t with errors := t.errors + 1 })
    ((xs ++ ys).foldl applyOutcome {})
  rw [List.foldl_append]

/-! ## C5 -/

lemma get_hourly_rate_fixed (rt : String)
    (h : fixedRateTypes.contains rt = true) (it1 it2 region : String) :
    get_hourly_rate rt it1 region = get_hourly_rate rt it2 region := by
  have h' : rt ∈ fixedRateTypes := by simpa using h
  by_cases hr : region = "us-east-1" <;> simp [get_hourly_rate, hr, h']

/-- A deleted RDS record: it carries a DBInstanceClass attribute but no
InstanceType attribute, exactly as the RDS DELETED write in the monitor
produces it. -/
def rdsDeletedSample : DbRecord :=
  { resourceId := some "db-1", resourceType := some "RDS",
    status := "DELETED", timestamp := 5,
    dbInstanceClass := some "db.t3.micro" }

/-- Counterexample to C5 as stated: on a log holding one deleted RDS
record, the monthly reduction prices it through DBInstanceClass (12.41
dollars per month for db.t3.micro) but the cumulative reduction prices it
through the absent InstanceType attribute, which defaults to Unknown and
rates 0; the two per-record savings differ. -/
theorem cumulative_differs_counterexample :
    calculateCumulativeSavings "us-east-1" [rdsDeletedSample] = 0 ∧
    (calculateSavings "us-east-1" 0 10 [rdsDeletedSample]).totalSavings = 1241 / 100 ∧
    (0 : ℚ) ≠ 1241 / 100 := by
  refine ⟨?_, ?_, by norm_num⟩
  · simp [calculateCumulativeSavings, cumulativeStatusFilter,
      recordCumulativeSavings, recordResourceType, rdsDeletedSample,
      calculate_monthly_savings, get_hourly_rate, fixedRateTypes,
      rdsHourlyTable, List.lookup]
  · simp [calculateSavings, monthFilter, savingsStep, rdsDeletedSample,
      recordMonthlySavings, recordResourceType, monthlySelectedInstanceType,
      calculate_monthly_savings, get_hourly_rate, fixedRateTypes,
      rdsHourlyTable, List.lookup, bumpService, HOURS_PER_MONTH]
    norm_num

/-- C5 amended.  The cumulative figure applies the same DELETED or STOPPED
filter with no time bound, but always prices a record from its InstanceType
attribute (default Unknown); it therefore equals the monthly per-record
reduction summed over all such records exactly on logs where each record
either has a monthly instance-type selection that coincides with that
attribute (e.g. EC2 records carrying InstanceType) or is of a fixed-rate
type whose price ignores the instance type (e.g. NAT gateways and load
balancer types). -/
theorem cumulative_uses_instance_type_attribute (region : String)
    (log : List DbRecord)
    (hsel : ∀ r ∈ log,
      monthlySelectedInstanceType r = r.instanceType.getD "Unknown" ∨
      fixedRateTypes.contains (recordResourceType r) = true) :
    calculateCumulativeSavings region log =
      ((log.filter cumulativeStatusFilter).map (recordMonthlySavings region)).sum := by
  unfold calculateCumulativeSavings
  congr 1
  apply List.map_congr_left
  intro r hr
  have hmem := List.mem_of_mem_filter hr
  rcases hsel r hmem with h | h
  · unfold recordCumulativeSavings recordMonthlySavings
    rw [h]
  · unfold recordCumulativeSavings recordMonthlySavings calculate_monthly_savings
    rw [get_hourly_rate_fixed (recordResourceType r) h
      (r.instanceType.getD "Unknown") (monthlySelectedInstanceType r) region]

/-- A deleted EC2 record carrying its InstanceType attribute. -/
def ec2DeletedSample : DbRecord :=
  { resourceId := some "i-1", resourceType := some "EC2",
    status := "DELETED", timestamp := 3, instanceType := some "t2.micro" }

/-- A deleted NAT gateway record (fixed-rate type, no instance class). -/
def natDeletedSample : DbRecord :=
  { resourceId := some "nat-1", resourceType := some "NAT_GATEWAY",
    status := "DELETED", timestamp := 4 }

/-- Witness for C5 amended, on a log of one EC2 and one NAT gateway
deletion. -/
theorem cumulative_uses_instance_type_attribute_witness :
    (∀ r ∈ [ec2DeletedSample, natDeletedSample],
      monthlySelectedInstanceType r = r.instanceType.getD "Unknown" ∨
      fixedRateTypes.contains (recordResourceType r) = true) ∧
    calculateCumulativeSavings "us-east-1" [ec2DeletedSample, natDeletedSample] =
      (([ec2DeletedSample, natDeletedSample].filter cumulativeStatusFilter).map
        (recordMonthlySavings "us-east-1")).sum :=
  ⟨by decide,
   cumulative_uses_instance_type_attribute "us-east-1"
     [ec2DeletedSample, natDeletedSample] (by decide)⟩

/-! ## C6 -/

/-- Counterexample to C6 as stated: for an instance class absent from the
pricing table, the monthly cost used by the savings computation is 0, not a
conservative positive estimate; and the monitor fallback in
get_instance_cost maps an unknown xlarge-family class to the large bucket
of 70, not a larger bracket. -/
theorem unknown_class_zero_rate_counterexample :
    ec2HourlyTable.lookup "t9.oddball" = none ∧
    calculate_monthly_savings "EC2" "t9.oddball" "us-east-1" = 0 ∧
    get_instance_cost "m5.8xlarge" = 70 := by
  refine ⟨by decide, ?_, by decide⟩
  simp [calculate_monthly_savings, get_hourly_rate, fixedRateTypes,
    ec2HourlyTable, List.lookup]

/-- C6 amended.  A known instance class is priced from the fixed table (the
hourly entry times 730 in the savings computation; the monthly entry in
get_instance_cost).  An unknown class rates 0 in the savings computation.
Only get_instance_cost has a size-bucketed fallback, and because it tests
the substring large before xlarge, unknown xlarge and 2xlarge classes fall
into the large bucket of 70 rather than a larger bracket. -/
theorem pricing_lookup_and_fallback :
    (∀ (t : String) (c : ℚ), ec2HourlyTable.lookup t = some c →
      calculate_monthly_savings "EC2" t "us-east-1" = c * HOURS_PER_MONTH) ∧
    (∀ t : String, ec2HourlyTable.lookup t = none →
      calculate_monthly_savings "EC2" t "us-east-1" = 0) ∧
    (∀ (t : String) (c : ℚ), ec2MonthlyTable.lookup t = some c →
      get_instance_cost t = c) ∧
    get_instance_cost "m7.xlarge" = 70 ∧ get_instance_cost "m7.2xlarge" = 70 := by
  refine ⟨?_, ?_, ?_, by decide, by decide⟩
  · intro t c h
    simp [calculate_monthly_savings, get_hourly_rate, fixedRateTypes, h]
  · intro t h
    simp [calculate_monthly_savings, get_hourly_rate, fixedRateTypes, h]
  · intro t c h
    simp [get_instance_cost, h]

/-- Witness for C6 amended: t2.micro is priced from the table and a class
absent from the table rates 0. -/
theorem pricing_lookup_and_fallback_witness :
    ec2HourlyTable.lookup "t2.micro" = some 0.0116 ∧
    calculate_monthly_savings "EC2" "t2.micro" "us-east-1" =
      0.0116 * HOURS_PER_MONTH ∧
    ec2HourlyTable.lookup "zz.mystery" = none ∧
    calculate_monthly_savings "EC2" "zz.mystery" "us-east-1" = 0 :=
  ⟨by simp [ec2HourlyTable, List.lookup],
   pricing_lookup_and_fallback.1 "t2.micro" 0.0116
     (by simp [ec2HourlyTable, List.lookup]),
   by decide,
   pricing_lookup_and_fallback.2.1 "zz.mystery" (by decide)⟩

/-! ## C8 -/

/-- The savings data of the scenario: a month with two qualifying
resources saving 10.00 and 25.50. -/
def sampleMonth : SavingsData :=
  { totalSavings := 35.5, totalResources := 2,
    savingsByService := [("EC2", ⟨2, 35.5⟩)],
    detailedResources :=
      [⟨"2025-01-05", "i-001", "EC2", "t3.micro", 10⟩,
       ⟨"2025-01-12", "i-002", "EC2", "t3.small", 25.5⟩] }

/-- C8.  The CSV report always starts with the fixed header, has exactly
one data row per qualifying resource plus four frame lines, and ends with
the Total Savings and Total Resources rows carrying the formatted totals;
on the scenario month with savings 10.00 and 25.50 the trailing rows are
exactly Total Savings 35.50 dollars and Total Resources 2. -/
theorem csv_report_shape :
    (∀ sd : SavingsData,
      (generateCsvReport sd).head? =
        some "Date,Resource ID,Resource Type,Instance Type,Monthly Savings" ∧
      (generateCsvReport sd).length = sd.detailedResources.length + 4 ∧
      (generateCsvReport sd).get? (sd.detailedResources.length + 2) =
        some ("Total Savings,,,$" ++ formatMoney2 sd.totalSavings) ∧
      (generateCsvReport sd).get? (sd.detailedResources.length + 3) =
        some ("Total Resources,,," ++ toString sd.totalResources)) ∧
    generateCsvReport sampleMonth =
      ["Date,Resource ID,Resource Type,Instance Type,Monthly Savings",
       "2025-01-05,i-001,EC2,t3.micro,$10.00",
       "2025-01-12,i-002,EC2,t3.small,$25.50",
       "",
       "Total Savings,,,$35.50",
       "Total Resources,,,2"] := by
  constructor
  · intro sd
    have hlen : (sd.detailedResources.map csvRow).length =
        sd.detailedResources.length := List.length_map _ _
    refine ⟨rfl, ?_, ?_, ?_⟩
    · simp only [generateCsvReport, List.length_cons, List.length_append,
        List.length_map]
      simp
    · have h1 : (generateCsvReport sd).get? (sd.detailedResources.length + 2) =
          ((sd.detailedResources.map csvRow) ++
            ["", "Total Savings,,,$" ++ formatMoney2 sd.totalSavings,
             "Total Resources,,," ++ toString sd.totalResources]).get?
            (sd.detailedResources.length + 1) := rfl
      rw [h1, List.get?_append_right (by omega)]
      rw [hlen]
      have h2 : sd.detailedResources.length + 1 - sd.detailedResources.length = 1 := by
        omega
      rw [h2]
      rfl
    · have h1 : (generateCsvReport sd).get? (sd.detailedResources.length + 3) =
          ((sd.detailedResources.map csvRow) ++
            ["", "Total Savings,,,$" ++ formatMoney2 sd.totalSavings,
             "Total Resources,,," ++ toString sd.totalResources]).get?
            (sd.detailedResources.length + 2) := rfl
      rw [h1, List.get?_append_right (by omega)]
      rw [hlen]
      have h2 : sd.detailedResources.length + 2 - sd.detailedResources.length = 2 := by
        omega
      rw [h2]
      rfl
  · have h10 : formatMoney2 10 = "10.00" := by
      have h : (⌊(10 : ℚ) * 100 + 1 / 2⌋ : ℤ) = 1000 := by norm_num
      unfold formatMoney2
      rw [h]
      rfl
    have h255 : formatMoney2 25.5 = "25.50" := by
      have h : (⌊(25.5 : ℚ) * 100 + 1 / 2⌋ : ℤ) = 2550 := by norm_num
      unfold formatMoney2
      rw [h]
      rfl
    have h355 : formatMoney2 35.5 = "35.50" := by
      have h : (⌊(35.5 : ℚ) * 100 + 1 / 2⌋ : ℤ) = 3550 := by norm_num
      unfold formatMoney2
      rw [h]
      rfl
    simp only [generateCsvReport, sampleMonth, csvRow, List.map_cons,
      List.map_nil, h10, h255, h355]
    rfl

/-! ## C10 -/

lemma foldl_savingsStep_filter_pos (region : String) (l : List DbRecord)
    (acc : List (String × ServiceAgg) × List DetailRow) :
    (l.filter (fun r => decide (0 < recordMonthlySavings region r))).foldl
        (savingsStep region) acc =
      l.foldl (savingsStep region) acc := by
  induction l generalizing acc with
  | nil => rfl
  | cons r t ih =>
    by_cases hp : 0 < recordMonthlySavings region r
    · rw [List.filter_cons_of_pos (by simpa using hp), List.foldl_cons,
        List.foldl_cons]
      exact ih (savingsStep region acc r)
    · rw [List.filter_cons_of_neg (by simpa using hp), ih acc,
        List.foldl_cons]
      have hstep : savingsStep region acc r = acc := by
        simp [savingsStep, hp]
      rw [hstep]

/-- C10.  Records whose computed monthly savings are zero are excluded from
the monthly report entirely: the report of any log equals the report of the
log restricted to records with positive computed savings, and so does its
CSV rendering; zero-savings records count in no total, no per-service
aggregate, and no detail or CSV row. -/
theorem zero_savings_records_excluded (region : String) (lo hi : ℤ)
    (log : List DbRecord) :
    calculateSavings region lo hi log =
      calculateSavings region lo hi
        (log.filter (fun r => decide (0 < recordMonthlySavings region r))) ∧
    generateCsvReport (calculateSavings region lo hi log) =
      generateCsvReport (calculateSavings region lo hi
        (log.filter (fun r => decide (0 < recordMonthlySavings region r)))) := by
  have hmain : calculateSavings region lo hi
      (log.filter (fun r => decide (0 < recordMonthlySavings region r))) =
      calculateSavings region lo hi log := by
    simp only [calculateSavings]
    rw [List.filter_comm, foldl_savingsStep_filter_pos]
  exact ⟨hmain.symm, congrArg generateCsvReport hmain.symm⟩

end CostGuardian
